import Mathlib

/-!
Verification development for the anime episode downloader
(`download_anime1.py`).  Python strings are embedded as `List Char`,
filesystem paths as a directory-component list plus a file name, and the
effectful download pipeline as explicit state passing over a small
file-system model together with an event trace.
-/

/-- Python strings, embedded as lists of characters. -/
abbrev Str := List Char

/-- Turn a Lean string literal into the embedding type. -/
def str (s : String) : Str := s.data

/-- The apostrophe character (used by the concat-manifest line format). -/
def quoteC : Char := Char.ofNat 39

/-- The backslash character. -/
def backslashC : Char := Char.ofNat 92

/-- The double-quote character. -/
def dquoteC : Char := Char.ofNat 34

/-- Python `pat in hay` substring test (empty pattern is contained in
everything). -/
def strContains (pat : Str) : Str → Bool
  | [] => pat.isEmpty
  | c :: rest => pat.isPrefixOf (c :: rest) || strContains pat rest

/-- Fuel-driven worker for `pyReplace`; the fuel starts at the length of the
string, which bounds the number of recursion steps, so the `0` case is never
reached on the initial call. -/
def pyReplaceAux (old new : Str) : Nat → Str → Str
  | _, [] => []
  | 0, s => s
  | fuel + 1, c :: rest =>
    if old ≠ [] ∧ old.isPrefixOf (c :: rest) then
      new ++ pyReplaceAux old new fuel (rest.drop (old.length - 1))
    else
      c :: pyReplaceAux old new fuel rest

/-- Python `s.replace(old, new)`: replace every non-overlapping occurrence of
`old` in `s` by `new`, scanning left to right.  (For the empty pattern this
returns `s` unchanged, which agrees with Python whenever `new` is empty —
the only way the program ever calls it with a possibly-empty pattern.) -/
def pyReplace (old new s : Str) : Str := pyReplaceAux old new s.length s

/-- Python `s.strip()`: remove leading and trailing whitespace. -/
def pyStrip (s : Str) : Str :=
  ((s.dropWhile Char.isWhitespace).reverse.dropWhile Char.isWhitespace).reverse

/-- Python `s.isdigit()` restricted to ASCII digits: non-empty and all
digits. -/
def pyIsDigit (s : Str) : Bool := !s.isEmpty && s.all Char.isDigit

/-- Decimal value of an all-digit string. -/
def digitsToNat (s : Str) : Nat := s.foldl (fun n c => n * 10 + (c.toNat - 48)) 0

/-- Digit-run parser used by `pyInt`: succeeds exactly on non-empty all-digit
strings. -/
def parseDigits (s : Str) : Option Nat :=
  if !s.isEmpty && s.all Char.isDigit then some (digitsToNat s) else none

/-- Python `int(s)` on decimal literals: surrounding whitespace and an
optional sign are accepted; `none` models the `ValueError` raise.
(Underscore digit grouping is not modelled.) -/
def pyInt (s : Str) : Option Int :=
  match pyStrip s with
  | '-' :: rest => (parseDigits rest).map (fun n => -(n : Int))
  | '+' :: rest => (parseDigits rest).map (fun n => (n : Int))
  | t => (parseDigits t).map (fun n => (n : Int))

/-- Python `f"{n:02d}"` for a non-negative value: pad a one-digit number with
a leading zero. -/
def pad2 (n : Nat) : Str :=
  if n < 10 then '0' :: (Nat.repr n).data else (Nat.repr n).data

/-- Python `s.split(sep)` for a one-character separator. -/
def pySplit (sep : Char) : Str → List Str
  | [] => [[]]
  | c :: rest =>
    if c = sep then [] :: pySplit sep rest
    else
      match pySplit sep rest with
      | h :: t => (c :: h) :: t
      | [] => [[c]]

/-- `s.split('.')[-1]`: the part after the last dot (the whole string when
there is no dot). -/
def lastAfterDot (s : Str) : Str := (pySplit '.' s).getLastD s

/-- Python `s.lower()` (ASCII). -/
def toLowerStr (s : Str) : Str := s.map Char.toLower

/-- Index of the last occurrence of `c` in `l`, if any. -/
def lastIdx (c : Char) : Str → Option Nat
  | [] => none
  | x :: rest =>
    match lastIdx c rest with
    | some i => some (i + 1)
    | none => if x = c then some 0 else none

/-! ## Naming Resolver (lines 67–122 of `download_anime1.py`) -/

/-- The characters removed by `sanitize_video_name`'s character class. -/
def illegalChars : Str := [backslashC, '/', ':', '*', '?', dquoteC, '<', '>', '|']

/-- `sanitize_video_name`: drop every filesystem-illegal character. -/
def sanitize_video_name (video_name : Str) : Str :=
  video_name.filter (fun c => !illegalChars.contains c)

/-- One line of `re.search(r"(.*)\[(.*)\]", l)` (the `.` wildcard never
crosses a newline, so a match lives inside a single line): with `j` the last
`]` of the line and `i` the last `[` before it, the greedy groups are the
text before `i` and the text strictly between `i` and `j`. -/
def parseBracketLine (l : Str) : Option (Str × Str) :=
  match lastIdx ']' l with
  | none => none
  | some j =>
    match lastIdx '[' (l.take j) with
    | none => none
    | some i => some (l.take i, (l.drop (i + 1)).take (j - i - 1))

/-- `parse_video_name`: search the first line admitting a `(.*)\[(.*)\]`
match and return the two groups, each stripped; `none` models the
`ValueError` raise for an unparseable title. -/
def parse_video_name (video_name : Str) : Option (Str × Str) :=
  ((pySplit (Char.ofNat 10) video_name).findSome? parseBracketLine).map
    (fun p => (pyStrip p.1, pyStrip p.2))

/-- `get_and_replace_season_number`: scan the configured season table in
order; at the first entry whose marker occurs in the name, return its code
together with the name with every occurrence of that marker removed and
stripped; otherwise no code and the name unchanged. -/
def get_and_replace_season_number (seasons : List (Str × Str)) (anime_name : Str) :
    Option Str × Str :=
  match seasons with
  | [] => (none, anime_name)
  | (marker, code) :: rest =>
    if strContains marker anime_name then
      (some code, pyStrip (pyReplace marker [] anime_name))
    else
      get_and_replace_season_number rest anime_name

/-- A filesystem path: directory components plus a file name. -/
structure PPath where
  dir : List Str
  name : Str
deriving DecidableEq, Repr

/-- `format_video_path`: build the destination path from the name, the
extracted season code and the episode part.  `none` models the `ValueError`
raised by `int(season_num)` on a non-numeric season code; an empty season
code is falsy in Python, hence takes the no-season branches.  The `mkdir`
side effect is modelled in the caller's event trace. -/
def format_video_path (root : List Str) (anime_name : Str) (season_num : Option Str)
    (episode_num : Str) : Option PPath :=
  let episode_str := if pyIsDigit episode_num then pad2 (digitsToNat episode_num) else episode_num
  match season_num with
  | some sn =>
    if sn.isEmpty then
      if pyIsDigit episode_num then
        some ⟨root ++ [anime_name, str "Season 1"],
              anime_name ++ str " - " ++ episode_str ++ str ".mp4"⟩
      else
        some ⟨root ++ [anime_name],
              anime_name ++ str " - " ++ episode_str ++ str ".mp4"⟩
    else
      match pyInt sn with
      | none => none
      | some k =>
        let folder := root ++ [anime_name, str "Season " ++ (Int.repr k).data]
        if pyIsDigit episode_num then
          some ⟨folder, anime_name ++ str " - S" ++ sn ++ str "E" ++ episode_str ++ str ".mp4"⟩
        else
          some ⟨folder, anime_name ++ str " - S" ++ sn ++ str " - " ++ episode_str ++ str ".mp4"⟩
  | none =>
    if pyIsDigit episode_num then
      some ⟨root ++ [anime_name, str "Season 1"],
            anime_name ++ str " - " ++ episode_str ++ str ".mp4"⟩
    else
      some ⟨root ++ [anime_name],
            anime_name ++ str " - " ++ episode_str ++ str ".mp4"⟩

/-- The error taxonomy: one constructor per distinct `raise` site of the
program. -/
inductive PyErr where
  | noVideoTag | noApireq | noVideoSrc | cookieParse | noTitle
  | formatError | seasonIntError | alreadyExists
  | unsupportedFormat (suffix : Str)
  | transferStatus (code : Nat)
  | zeroContentLength
  | tooSmall
  | remuxError
deriving DecidableEq, Repr

/-- The pure part of `process_video_name` (lines 179–186): sanitize, split
off the episode, extract the season, format the path.  The existence check
of line 187 is performed by the caller against the file-system model. -/
def process_video_path (root : List Str) (seasons : List (Str × Str))
    (video_name : Str) : Except PyErr PPath :=
  let clean := sanitize_video_name video_name
  match parse_video_name clean with
  | none => .error .formatError
  | some (anime0, episode_num) =>
    let (season_num, anime_name) := get_and_replace_season_number seasons anime0
    match format_video_path root anime_name season_num episode_num with
    | none => .error .seasonIntError
    | some vp => .ok vp

/-! ## File-system model and download validation -/

/-- File-system model: a list of (path, size-in-bytes) entries. -/
abbrev FS := List (PPath × Nat)

/-- `Path.exists()`. -/
def fsExists (fs : FS) (p : PPath) : Bool := fs.any (fun e => e.1 = p)

/-- `Path.stat().st_size` (0 when the path is absent; the program only stats
paths it has just written). -/
def fsSize (fs : FS) (p : PPath) : Nat :=
  match fs.find? (fun e => e.1 = p) with
  | some e => e.2
  | none => 0

/-- `Path.unlink()`: remove every entry at the path. -/
def fsRemove (fs : FS) (p : PPath) : FS := fs.filter (fun e => !(e.1 = p))

/-- Write a file: any previous entry at the path is replaced. -/
def fsInsert (fs : FS) (p : PPath) (size : Nat) : FS := (fsRemove fs p) ++ [(p, size)]

/-- `Path.rename`: move the entry at `src` to `dst`. -/
def fsRename (fs : FS) (src dst : PPath) : FS :=
  fsInsert (fsRemove fs src) dst (fsSize fs src)

/-- `shutil.rmtree(d)`: remove every entry whose directory lies under `d`. -/
def fsRemoveTree (fs : FS) (d : List Str) : FS :=
  fs.filter (fun e => !(d.isPrefixOf e.1.dir))

/-- `validate_download` (lines 117–122): if the file at `video_path` is
smaller than 1 MiB, delete it and fail (`TooSmall`); otherwise leave the
file system untouched. -/
def validate_download (fs : FS) (video_path : PPath) : FS × Except PyErr Unit :=
  if fsSize fs video_path < 1024 * 1024 then
    (fsRemove fs video_path, .error .tooSmall)
  else
    (fs, .ok ())

/-! ## Segment Downloader (lines 278–351) -/

/-- An HTTP response, as far as the program observes it: the status code,
the segment URIs that the `m3u8` library extracts from the body (meaningful
only for playlist fetches), and the body size in bytes. -/
structure HttpResp where
  status : Nat
  segments : List Str
  bytes : Nat

/-- Python dict insertion: a repeated key keeps its first position and takes
the new value. -/
def dictInsert (k v : Str) (d : List (Str × Str)) : List (Str × Str) :=
  if d.any (fun e => e.1 = k) then
    d.map (fun e => if e.1 = k then (k, v) else e)
  else
    d ++ [(k, v)]

/-- The dict comprehension of line 350: segment name to absolute URL,
`new_url.replace("playlist.m3u8", ts_file)`, in declaration order. -/
def tsDict (ts_files : List Str) (new_url : Str) : List (Str × Str) :=
  ts_files.foldl (fun d f => dictInsert f (pyReplace (str "playlist.m3u8") f new_url) d) []

/-- `parse_m3u8_from_url` (lines 340–351): the loop over
`["1080p", "720p"]` unrolled — substitute each quality for `"playlist"` in
the URL, use the first response with status 200, and raise a
`ConnectionError` carrying the *last* response's status when both fail. -/
def parse_m3u8_from_url (get : Str → HttpResp) (url : Str) :
    Except PyErr (List (Str × Str)) :=
  let u1080 := pyReplace (str "playlist") (str "1080p") url
  let r1080 := get u1080
  if r1080.status = 200 then
    .ok (tsDict r1080.segments u1080)
  else
    let u720 := pyReplace (str "playlist") (str "720p") url
    let r720 := get u720
    if r720.status = 200 then
      .ok (tsDict r720.segments u720)
    else
      .error (.transferStatus r720.status)

/-- Events recorded while processing one episode. -/
inductive Ev where
  | netPost (url : Str)
  | netGet (url : Str)
  | mkdirEv (folder : List Str)
  | existsCheck (p : PPath)
  | writeFile (p : PPath)
  | deleteFile (p : PPath)
  | renameFile (src dst : PPath)
deriving DecidableEq, Repr

/-- The scratch directory `Path(".ts")`. -/
def tsFolder : List Str := [str ".ts"]

/-- `/` as a string. -/
def slashS : Str := [Char.ofNat 47]

/-- POSIX join of path components. -/
def posixJoin (comps : List Str) : Str := (List.intersperse slashS comps).flatten

/-- `(ts_folder / ts_name).resolve().as_posix()`: the scratch file made
absolute against the working directory. -/
def resolvedTsPath (cwd : List Str) (ts_name : Str) : Str :=
  posixJoin (cwd ++ tsFolder ++ [ts_name])

/-- One line of the concatenation manifest (line 294):
`file '<resolved path>'`. -/
def tsLine (cwd : List Str) (ts_name : Str) : Str :=
  str "file " ++ [quoteC] ++ resolvedTsPath cwd ts_name ++ [quoteC]

/-- Result of `download_ts`: the concatenation-manifest lines written to the
scratch playlist, the final file system, the event trace, and the outcome. -/
structure TsOut where
  manifest : List Str
  fs : FS
  events : List Ev
  result : Except PyErr Unit

/-- `download_ts` (lines 278–313): parse the segment manifest, write the
concatenation manifest (one line per mapping entry, in declaration order),
download all segments concurrently — `order` is the non-deterministic
completion order of the worker pool — then remux (`remuxOk`/`remuxBytes`
stand for the external `ffmpeg` run), rename the hidden temp file to the
destination and delete the scratch directory. -/
def download_ts (get : Str → HttpResp) (cwd : List Str) (order : List (Str × Str))
    (remuxOk : Bool) (remuxBytes : Nat) (fs : FS) (download_url : Str)
    (video_path : PPath) : TsOut :=
  match parse_m3u8_from_url get download_url with
  | .error e => { manifest := [], fs := fs, events := [], result := .error e }
  | .ok ts_links =>
    let manifest := ts_links.map (fun p => tsLine cwd p.1)
    let playlistPath : PPath := ⟨tsFolder, str "playlist.m3u8"⟩
    let fs1 := fsInsert fs playlistPath manifest.length
    let fs2 := order.foldl (fun acc p => fsInsert acc ⟨tsFolder, p.1⟩ (get p.2).bytes) fs1
    let evs := Ev.writeFile playlistPath :: order.map (fun p => Ev.netGet p.2)
    if remuxOk then
      let tmp : PPath := ⟨tsFolder, str ".temp.mp4"⟩
      let fs3 := fsInsert fs2 tmp remuxBytes
      let fs4 := fsRename fs3 tmp video_path
      let fs5 := fsRemoveTree fs4 tsFolder
      { manifest, fs := fs5,
        events := evs ++ [Ev.renameFile tmp video_path], result := .ok () }
    else
      { manifest, fs := fs2, events := evs, result := .error .remuxError }

/-! ## Progressive Downloader (lines 249–276) -/

/-- Result of `download_mp4`: final file system, event trace, outcome. -/
structure Mp4Out where
  fs : FS
  events : List Ev
  result : Except PyErr Unit

/-- `download_mp4`: stream the media URL (`status`, `contentLength` and
`bodyBytes` describe the response) to a hidden dot-prefixed temp file in
chunks, then rename it onto the destination.  Non-200 status and a zero
`Content-Length` raise before anything is written. -/
def download_mp4 (status contentLength bodyBytes : Nat) (fs : FS)
    (download_url : Str) (video_path : PPath) : Mp4Out :=
  if status ≠ 200 then
    { fs := fs, events := [Ev.netGet download_url],
      result := .error (.transferStatus status) }
  else if contentLength = 0 then
    { fs := fs, events := [Ev.netGet download_url],
      result := .error .zeroContentLength }
  else
    let temp : PPath := ⟨video_path.dir, '.' :: video_path.name⟩
    let fs1 := if fsExists fs temp then fsRemove fs temp else fs
    let fs2 := fsInsert fs1 temp bodyBytes
    let fs3 := fsRename fs2 temp video_path
    { fs := fs3,
      events := [Ev.netGet download_url, Ev.writeFile temp,
                 Ev.renameFile temp video_path],
      result := .ok () }

/-! ## Media Resolver (lines 190–247) -/

/-- Lines 209–212: take the first source entry's `src` field; a missing or
empty (falsy) value raises; otherwise the URL is `https:` glued in front of
the value. -/
def resolve_video_src (src : Option Str) : Except PyErr Str :=
  match src with
  | none => .error .noVideoSrc
  | some s => if s.isEmpty then .error .noVideoSrc else .ok (str "https:" ++ s)

/-- Case-insensitive prefix test (`re.I`). -/
def ciStartsWith : Str → Str → Bool
  | [], _ => true
  | _ :: _, [] => false
  | p :: ps, c :: cs => (p.toLower = c.toLower) && ciStartsWith ps cs

/-- The non-greedy capture `(.*?);`: the characters before the first `;`,
failing if a newline (which `.` does not match) comes first or no `;`
exists. -/
def captureToSemi : Str → Option Str
  | [] => none
  | c :: rest =>
    if c = ';' then some []
    else if c = Char.ofNat 10 then none
    else (captureToSemi rest).map (c :: ·)

/-- `re.search(pre + "(.*?);", s, re.I)`: at the leftmost position where the
whole pattern matches, return the capture. -/
def regexCaptureCI (pat s : Str) : Option Str :=
  match s with
  | [] => none
  | _ :: rest =>
    match (if ciStartsWith pat s then captureToSemi (s.drop pat.length) else none) with
    | some r => some r
    | none => regexCaptureCI pat rest

/-- Lines 215–221: the `e`/`p`/`h` cookie components of the `set-cookie`
header; all three must match. -/
def cookieTriple (setCookie : Str) : Option (Str × Str × Str) :=
  match regexCaptureCI (str "e=") setCookie,
        regexCaptureCI (str "p=") setCookie,
        regexCaptureCI (str "HttpOnly, h=") setCookie with
  | some a, some b, some c => some (a, b, c)
  | _, _, _ => none

/-- The episode page, as far as the program reads it: whether a
`video.video-js` tag exists, its `data-apireq` attribute, and the
`entry-title` heading text. -/
structure Page where
  videoTag : Bool
  dataApireq : Option Str
  entryTitle : Option Str

/-- The API response: `s[0].src` and the `set-cookie` header. -/
structure ApiResp where
  src : Option Str
  setCookie : Str

/-- Python truthiness of an optional string (`None` and `""` are falsy). -/
def optTruthy : Option Str → Bool
  | none => false
  | some s => !s.isEmpty

/-- The fixed API endpoint. -/
def apiUrl : Str := str "https://v.anime1.me/api"

/-- Environment of one `download_episode` call: configuration, what the
remote site answers, the scheduling of the segment pool, the behaviour of
the external remux tool, and the initial file system. -/
structure Env where
  root : List Str
  seasons : List (Str × Str)
  cwd : List Str
  page : Page
  api : ApiResp
  get : Str → HttpResp
  mp4Status : Nat
  mp4ContentLength : Nat
  mp4Bytes : Nat
  tsOrder : List (Str × Str)
  remuxOk : Bool
  remuxBytes : Nat
  fs : FS

/-- `download_episode` (lines 190–247): fetch the page, extract the request
token, call the API, assemble the media URL and cookies, compute the
destination path (creating its directories), fail hard if it exists, then
dispatch on the URL extension and validate the downloaded file.  Returns
the event trace and the outcome. -/
def download_episode (env : Env) (url : Str) : List Ev × Except PyErr Unit :=
  let evs := [Ev.netPost url]
  if !env.page.videoTag then (evs, .error .noVideoTag)
  else if !optTruthy env.page.dataApireq then (evs, .error .noApireq)
  else
    let evs := evs ++ [Ev.netPost apiUrl]
    match resolve_video_src env.api.src with
    | .error e => (evs, .error e)
    | .ok video_url =>
      match cookieTriple env.api.setCookie with
      | none => (evs, .error .cookieParse)
      | some _ =>
        match env.page.entryTitle with
        | none => (evs, .error .noTitle)
        | some t =>
          let title := pyStrip t
          match process_video_path env.root env.seasons title with
          | .error e => (evs, .error e)
          | .ok video_path =>
            let evs := evs ++ [Ev.mkdirEv video_path.dir, Ev.existsCheck video_path]
            if fsExists env.fs video_path then (evs, .error .alreadyExists)
            else
              let video_suffix := toLowerStr (lastAfterDot video_url)
              if video_suffix = str "mp4" then
                let o := download_mp4 env.mp4Status env.mp4ContentLength env.mp4Bytes
                  env.fs video_url video_path
                match o.result with
                | .error e => (evs ++ o.events, .error e)
                | .ok _ => (evs ++ o.events, (validate_download o.fs video_path).2)
              else if video_suffix = str "m3u8" then
                let o := download_ts env.get env.cwd env.tsOrder env.remuxOk
                  env.remuxBytes env.fs video_url video_path
                match o.result with
                | .error e => (evs ++ o.events, .error e)
                | .ok _ => (evs ++ o.events, (validate_download o.fs video_path).2)
              else (evs, .error (.unsupportedFormat video_suffix))

/-! ## Helper lemmas -/

/-- If no configured marker occurs in a name, the season scan returns the
name unchanged with no code. -/
lemma get_and_replace_noop (seasons : List (Str × Str)) (name : Str)
    (h : ∀ p ∈ seasons, strContains p.1 name = false) :
    get_and_replace_season_number seasons name = (none, name) := by
  induction seasons with
  | nil => rfl
  | cons p rest ih =>
    obtain ⟨m, c⟩ := p
    simp only [get_and_replace_season_number, h (m, c) (List.mem_cons_self _ _)]
    simpa using ih (fun q hq => h q (List.mem_cons_of_mem _ hq))

/-- Removing every entry at a path makes the path nonexistent. -/
lemma fsExists_fsRemove (fs : FS) (p : PPath) :
    fsExists (fsRemove fs p) p = false := by
  simp only [fsExists, fsRemove, List.any_eq_false]
  intro e he
  have := List.of_mem_filter he
  simpa using this

/-- A path with positive recorded size exists. -/
lemma fsExists_of_fsSize_pos (fs : FS) (p : PPath) (h : 0 < fsSize fs p) :
    fsExists fs p = true := by
  unfold fsSize at h
  cases heq : fs.find? (fun e => e.1 = p) with
  | none => rw [heq] at h; exact absurd h (by simp)
  | some e =>
    have hmem := List.mem_of_find?_eq_some heq
    have hpe := List.find?_some heq
    simp only [fsExists, List.any_eq_true]
    exact ⟨e, hmem, hpe⟩

/-! ## Claim theorems: Naming Resolver -/

/-- C10: the season scan walks the configured table in order, stops at the
first entry whose marker is a substring of the name, removes every
occurrence of that marker (`pyReplace` with the empty replacement) and
strips whitespace; entries after the first matching one are never applied,
whatever they are. -/
theorem season_scan_first_match_wins (pre post : List (Str × Str)) (m c name : Str)
    (hpre : ∀ p ∈ pre, strContains p.1 name = false)
    (hm : strContains m name = true) :
    get_and_replace_season_number (pre ++ (m, c) :: post) name
      = (some c, pyStrip (pyReplace m [] name)) := by
  induction pre with
  | nil => simp [get_and_replace_season_number, hm]
  | cons p rest ih =>
    obtain ⟨pm, pc⟩ := p
    simp only [List.cons_append, get_and_replace_season_number,
      hpre (pm, pc) (List.mem_cons_self _ _)]
    simpa using ih (fun q hq => hpre q (List.mem_cons_of_mem _ hq))

/-- Witness for `season_scan_first_match_wins`: a two-entry table where the
second entry matches and a third entry would also match but is ignored. -/
theorem season_scan_first_match_wins_witness :
    (∀ p ∈ [(str "第一季", str "1")], strContains p.1 (str "A 第二季") = false)
      ∧ strContains (str "第二季") (str "A 第二季") = true
      ∧ get_and_replace_season_number
          [(str "第一季", str "1"), (str "第二季", str "2"), (str "季", str "9")]
          (str "A 第二季")
        = (some (str "2"), pyStrip (pyReplace (str "第二季") [] (str "A 第二季"))) :=
  ⟨by decide, by decide,
    season_scan_first_match_wins [(str "第一季", str "1")] [(str "季", str "9")]
      (str "第二季") (str "2") (str "A 第二季") (by decide) (by decide)⟩

/-- C6 (counterexample): season extraction is *not* idempotent.  With the
single configured marker `第二季`, the title name `第第二季二季` strips to
`第二季`, which still contains the marker, so a second application changes
the name again and reports a season code. -/
theorem season_extract_not_idempotent :
    get_and_replace_season_number [(str "第二季", str "2")] (str "第第二季二季")
        = (some (str "2"), str "第二季")
      ∧ get_and_replace_season_number [(str "第二季", str "2")] (str "第二季")
        ≠ (none, str "第二季") := by
  exact ⟨rfl, by decide⟩

/-- C6 (amended): the season-extraction step is a no-op — name unchanged, no
season code — on any name in which no configured marker occurs; in
particular a second application is the identity whenever the first
application's output contains no marker. -/
theorem season_extract_idempotent_when_marker_free (seasons : List (Str × Str)) (name : Str)
    (h : ∀ p ∈ seasons, strContains p.1 name = false) :
    get_and_replace_season_number seasons name = (none, name) :=
  get_and_replace_noop seasons name h

/-- Witness for `season_extract_idempotent_when_marker_free`: the stripped
name `進擊的巨人` contains neither configured marker. -/
theorem season_extract_idempotent_when_marker_free_witness :
    (∀ p ∈ [(str "第四季", str "4"), (str "第二季", str "2")],
        strContains p.1 (str "進擊的巨人") = false)
      ∧ get_and_replace_season_number
          [(str "第四季", str "4"), (str "第二季", str "2")] (str "進擊的巨人")
        = (none, str "進擊的巨人") :=
  ⟨by decide,
    season_extract_idempotent_when_marker_free
      [(str "第四季", str "4"), (str "第二季", str "2")] (str "進擊的巨人") (by decide)⟩

/-- C3 (counterexample): for the title `某動畫[OP]` with no season match the
resolver produces `<root>/某動畫/某動畫 - OP.mp4` — a non-numeric episode
with no season gets *no* `Season 1` folder, so the claimed path
`<root>/某動畫/Season 1/某動畫 - OP.mp4` is wrong. -/
theorem scenarioB_claimed_path_false :
    process_video_path [str "r"] [] (str "某動畫[OP]")
        = .ok ⟨[str "r", str "某動畫"], str "某動畫 - OP.mp4"⟩
      ∧ (⟨[str "r", str "某動畫"], str "某動畫 - OP.mp4"⟩ : PPath)
        ≠ ⟨[str "r", str "某動畫", str "Season 1"], str "某動畫 - OP.mp4"⟩ :=
  ⟨rfl, by decide⟩

/-- C3 (amended): for the title `某動畫[OP]` under any season table none of
whose markers occurs in `某動畫`, the resolver computes
`<root>/某動畫/某動畫 - OP.mp4` (no season folder). -/
theorem scenarioB_path (root : List Str) (seasons : List (Str × Str))
    (h : ∀ p ∈ seasons, strContains p.1 (str "某動畫") = false) :
    process_video_path root seasons (str "某動畫[OP]")
      = .ok ⟨root ++ [str "某動畫"], str "某動畫 - OP.mp4"⟩ := by
  have h1 : sanitize_video_name (str "某動畫[OP]") = str "某動畫[OP]" := rfl
  have h2 : parse_video_name (str "某動畫[OP]") = some (str "某動畫", str "OP") := rfl
  have h3 := get_and_replace_noop seasons (str "某動畫") h
  have h4 : pyIsDigit (str "OP") = false := rfl
  simp only [process_video_path, h1, h2, h3, format_video_path, h4]
  rfl

/-- Witness for `scenarioB_path`: the empty season table. -/
theorem scenarioB_path_witness :
    process_video_path [str "r"] [] (str "某動畫[OP]")
      = .ok ⟨[str "r"] ++ [str "某動畫"], str "某動畫 - OP.mp4"⟩ :=
  scenarioB_path [str "r"] [] (by intro p hp; cases hp)

/-- C7 (counterexample): the output path is *not* a function of
(name, season, episode-numeric?): episodes `1` and `2` agree on all three
components yet give different paths. -/
theorem format_video_path_not_determined_by_numeric :
    pyIsDigit (str "1") = pyIsDigit (str "2")
      ∧ format_video_path [str "r"] (str "A") none (str "1")
        ≠ format_video_path [str "r"] (str "A") none (str "2") := by
  constructor
  · rfl
  · decide

/-- C7 (amended): path formatting is a pure function of
(name, season code, episode string) — it is deterministic — and the
containing *folder* is determined by (name, season code, episode-numeric?)
alone: two episode strings of equal numericness give the same folder. -/
theorem format_video_path_folder_pure (root : List Str) (anime_name : Str)
    (season_num : Option Str) (e1 e2 : Str)
    (h : pyIsDigit e1 = pyIsDigit e2) :
    (format_video_path root anime_name season_num e1).map PPath.dir
      = (format_video_path root anime_name season_num e2).map PPath.dir := by
  simp only [format_video_path, ← h]
  cases season_num with
  | none => cases pyIsDigit e1 <;> simp
  | some sn =>
    by_cases hs : sn.isEmpty
    · simp only [hs, if_true]
      cases pyIsDigit e1 <;> simp
    · simp only [hs, if_false]
      cases pyInt sn with
      | none => simp
      | some k => cases pyIsDigit e1 <;> simp

/-- Witness for `format_video_path_folder_pure`: episodes `3` and `12` are
both numeric and land in the same folder. -/
theorem format_video_path_folder_pure_witness :
    pyIsDigit (str "3") = pyIsDigit (str "12")
      ∧ (format_video_path [str "r"] (str "A") (some (str "4")) (str "3")).map PPath.dir
        = (format_video_path [str "r"] (str "A") (some (str "4")) (str "12")).map PPath.dir :=
  ⟨rfl, format_video_path_folder_pure [str "r"] (str "A") (some (str "4"))
    (str "3") (str "12") rfl⟩

/-- C9 (counterexample): an *empty* configured season code cannot be
converted by `int()`, yet `format_video_path` does not raise: the empty
string is falsy in Python, so the season branches (and their `int()` call)
are skipped and a path is returned. -/
theorem format_video_path_empty_code_no_raise :
    pyInt (str "") = none
      ∧ process_video_path [str "r"] [(str "X", str "")] (str "AX[3]")
        = .ok ⟨[str "r", str "A", str "Season 1"], str "A - 03.mp4"⟩ :=
  ⟨rfl, rfl⟩

/-- C9 (amended): whenever the extracted season code is truthy (non-empty)
and `int()` cannot convert it, `format_video_path` raises instead of
returning a path. -/
theorem format_video_path_bad_season_raises (root : List Str) (anime_name : Str)
    (sn episode_num : Str) (hne : sn.isEmpty = false) (hint : pyInt sn = none) :
    format_video_path root anime_name (some sn) episode_num = none := by
  simp [format_video_path, hne, hint]

/-- Witness for `format_video_path_bad_season_raises`: the season code
`abc`. -/
theorem format_video_path_bad_season_raises_witness :
    (str "abc").isEmpty = false ∧ pyInt (str "abc") = none
      ∧ format_video_path [str "r"] (str "A") (some (str "abc")) (str "1") = none :=
  ⟨rfl, rfl, format_video_path_bad_season_raises [str "r"] (str "A")
    (str "abc") (str "1") rfl rfl⟩

/-! ## Claim theorems: Media Resolver and Segment Downloader -/

/-- C8 (counterexample): the `https:` prefix is applied *unconditionally*,
not only to protocol-relative values: a `src` that already carries a scheme
comes out mangled rather than unchanged. -/
theorem resolve_video_src_always_prefixes :
    resolve_video_src (some (str "https://example.com/v.mp4"))
        = .ok (str "https:" ++ str "https://example.com/v.mp4")
      ∧ str "https:" ++ str "https://example.com/v.mp4"
        ≠ str "https://example.com/v.mp4" :=
  ⟨rfl, by decide⟩

/-- C8 (amended): the first source entry's `src` is *always* prefixed with
`https:` (the API returns protocol-relative values), and resolution fails
with `ResolutionError` exactly when the field is missing or empty (falsy). -/
theorem resolve_video_src_spec (src : Option Str) :
    (resolve_video_src src = .error .noVideoSrc ↔ src = none ∨ src = some [])
      ∧ (∀ s, src = some s → s ≠ [] → resolve_video_src src = .ok (str "https:" ++ s)) := by
  constructor
  · cases src with
    | none => simp [resolve_video_src]
    | some s => cases s <;> simp [resolve_video_src]
  · intro s hs hne
    subst hs
    cases s with
    | nil => exact absurd rfl hne
    | cons c cs => simp [resolve_video_src]

/-- Witness for `resolve_video_src_spec`: a missing field fails; a
protocol-relative value is prefixed. -/
theorem resolve_video_src_spec_witness :
    resolve_video_src none = .error .noVideoSrc
      ∧ resolve_video_src (some (str "//h/v.mp4")) = .ok (str "https:" ++ str "//h/v.mp4") :=
  ⟨(resolve_video_src_spec none).1.mpr (Or.inl rfl),
   (resolve_video_src_spec (some (str "//h/v.mp4"))).2 (str "//h/v.mp4") rfl (by decide)⟩

/-- C4: the manifest fetch substitutes `1080p` then `720p` for `playlist`
in the URL; the first response with status 200 supplies the manifest (so a
404 at 1080p followed by a 200 at 720p builds it from the 720p response
only), and the fetch raises `ConnectionError` exactly when both responses
are non-200 (carrying the last status). -/
theorem parse_m3u8_tier_selection (get : Str → HttpResp) (url : Str) :
    ((get (pyReplace (str "playlist") (str "1080p") url)).status = 200 →
        parse_m3u8_from_url get url
          = .ok (tsDict (get (pyReplace (str "playlist") (str "1080p") url)).segments
              (pyReplace (str "playlist") (str "1080p") url)))
      ∧ ((get (pyReplace (str "playlist") (str "1080p") url)).status ≠ 200 →
          (get (pyReplace (str "playlist") (str "720p") url)).status = 200 →
        parse_m3u8_from_url get url
          = .ok (tsDict (get (pyReplace (str "playlist") (str "720p") url)).segments
              (pyReplace (str "playlist") (str "720p") url)))
      ∧ ((get (pyReplace (str "playlist") (str "1080p") url)).status ≠ 200 →
          (get (pyReplace (str "playlist") (str "720p") url)).status ≠ 200 →
        parse_m3u8_from_url get url
          = .error (.transferStatus
              (get (pyReplace (str "playlist") (str "720p") url)).status))
      ∧ ((∃ e, parse_m3u8_from_url get url = .error e) ↔
          (get (pyReplace (str "playlist") (str "1080p") url)).status ≠ 200
            ∧ (get (pyReplace (str "playlist") (str "720p") url)).status ≠ 200) := by
  by_cases h1 : (get (pyReplace (str "playlist") (str "1080p") url)).status = 200
  · refine ⟨fun _ => ?_, fun hn _ => absurd h1 hn, fun hn _ => absurd h1 hn, ?_⟩
    · simp [parse_m3u8_from_url, h1]
    · constructor
      · rintro ⟨e, he⟩
        simp [parse_m3u8_from_url, h1] at he
      · rintro ⟨hn, _⟩
        exact absurd h1 hn
  · by_cases h2 : (get (pyReplace (str "playlist") (str "720p") url)).status = 200
    · refine ⟨fun hc => absurd hc h1, fun _ _ => ?_, fun _ hn => absurd h2 hn, ?_⟩
      · simp [parse_m3u8_from_url, h1, h2]
      · constructor
        · rintro ⟨e, he⟩
          simp [parse_m3u8_from_url, h1, h2] at he
        · rintro ⟨_, hn⟩
          exact absurd h2 hn
    · refine ⟨fun hc => absurd hc h1, fun _ hc => absurd hc h2, fun _ _ => ?_, ?_⟩
      · simp [parse_m3u8_from_url, h1, h2]
      · exact ⟨fun _ => ⟨h1, h2⟩,
          fun _ => ⟨.transferStatus (get (pyReplace (str "playlist") (str "720p") url)).status,
            by simp [parse_m3u8_from_url, h1, h2]⟩⟩

/-- A concrete remote for the tier-selection witness: 404 at the 1080p URL,
200 with two segments at everything else. -/
def tierGet : Str → HttpResp := fun u =>
  if u = pyReplace (str "playlist") (str "1080p") (str "http://h/playlist.m3u8") then
    ⟨404, [], 0⟩
  else
    ⟨200, [str "s1.ts", str "s2.ts"], 7⟩

/-- Witness for `parse_m3u8_tier_selection`: 1080p answers 404, 720p answers
200, and the manifest is built from the 720p response. -/
theorem parse_m3u8_tier_selection_witness :
    (tierGet (pyReplace (str "playlist") (str "1080p") (str "http://h/playlist.m3u8"))).status ≠ 200
      ∧ (tierGet (pyReplace (str "playlist") (str "720p") (str "http://h/playlist.m3u8"))).status = 200
      ∧ parse_m3u8_from_url tierGet (str "http://h/playlist.m3u8")
        = .ok (tsDict [str "s1.ts", str "s2.ts"]
            (pyReplace (str "playlist") (str "720p") (str "http://h/playlist.m3u8"))) :=
  ⟨by decide, by decide,
    (parse_m3u8_tier_selection tierGet (str "http://h/playlist.m3u8")).2.1
      (by decide) (by decide)⟩

/-- C5: post-download validation deletes a file below 1 MiB and fails with
`TooSmall`, leaving the destination nonexistent; a file of at least 1 MiB
passes validation and the file system is untouched (the file stays in
place). -/
theorem validate_download_spec (fs : FS) (video_path : PPath) (s : Nat)
    (h : fsSize fs video_path = s) :
    (s < 1024 * 1024 →
        validate_download fs video_path = (fsRemove fs video_path, .error .tooSmall)
          ∧ fsExists (fsRemove fs video_path) video_path = false)
      ∧ (1024 * 1024 ≤ s →
        validate_download fs video_path = (fs, .ok ())
          ∧ fsExists fs video_path = true) := by
  subst h
  constructor
  · intro hlt
    exact ⟨by simp [validate_download, hlt], fsExists_fsRemove fs video_path⟩
  · intro hge
    have hnlt : ¬ fsSize fs video_path < 1024 * 1024 := by omega
    exact ⟨by simp [validate_download, hnlt],
      fsExists_of_fsSize_pos fs video_path (by omega)⟩

/-- Witness for `validate_download_spec`: a 5-byte download is deleted, a
2-MiB download stays. -/
theorem validate_download_spec_witness :
    (validate_download [(⟨[str "r"], str "a.mp4"⟩, 5)] ⟨[str "r"], str "a.mp4"⟩
        = (fsRemove [(⟨[str "r"], str "a.mp4"⟩, 5)] ⟨[str "r"], str "a.mp4"⟩, .error .tooSmall)
      ∧ fsExists (fsRemove [(⟨[str "r"], str "a.mp4"⟩, 5)] ⟨[str "r"], str "a.mp4"⟩)
          ⟨[str "r"], str "a.mp4"⟩ = false)
      ∧ (validate_download [(⟨[str "r"], str "b.mp4"⟩, 2097152)] ⟨[str "r"], str "b.mp4"⟩
          = ([(⟨[str "r"], str "b.mp4"⟩, 2097152)], .ok ())
        ∧ fsExists [(⟨[str "r"], str "b.mp4"⟩, 2097152)] ⟨[str "r"], str "b.mp4"⟩ = true) :=
  ⟨(validate_download_spec [(⟨[str "r"], str "a.mp4"⟩, 5)] ⟨[str "r"], str "a.mp4"⟩ 5 rfl).1
      (by norm_num),
   (validate_download_spec [(⟨[str "r"], str "b.mp4"⟩, 2097152)] ⟨[str "r"], str "b.mp4"⟩
      2097152 rfl).2 (by norm_num)⟩

/-- C1: whatever completion order the segment pool produces, the
concatenation manifest written by `download_ts` has exactly one line per
entry of the parsed segment manifest, in the manifest's declaration
order. -/
theorem download_ts_manifest_order (get : Str → HttpResp) (cwd : List Str)
    (order order2 : List (Str × Str)) (remuxOk : Bool) (remuxBytes : Nat) (fs : FS)
    (download_url : Str) (video_path : PPath) (ts_links : List (Str × Str))
    (h : parse_m3u8_from_url get download_url = .ok ts_links) :
    (download_ts get cwd order remuxOk remuxBytes fs download_url video_path).manifest
        = ts_links.map (fun p => tsLine cwd p.1)
      ∧ (download_ts get cwd order remuxOk remuxBytes fs download_url video_path).manifest.length
        = ts_links.length
      ∧ (download_ts get cwd order remuxOk remuxBytes fs download_url video_path).manifest
        = (download_ts get cwd order2 remuxOk remuxBytes fs download_url video_path).manifest := by
  have hm : ∀ o : List (Str × Str),
      (download_ts get cwd o remuxOk remuxBytes fs download_url video_path).manifest
        = ts_links.map (fun p => tsLine cwd p.1) := by
    intro o
    unfold download_ts
    rw [h]
    cases remuxOk <;> simp
  exact ⟨hm order, by rw [hm order]; simp, by rw [hm order, hm order2]⟩

/-- The parsed segment manifest of the witness remote. -/
def tierLinks : List (Str × Str) :=
  tsDict [str "s1.ts", str "s2.ts"]
    (pyReplace (str "playlist") (str "720p") (str "http://h/playlist.m3u8"))

/-- Witness for `download_ts_manifest_order`: two opposite completion
orders of a two-segment manifest yield the same manifest, one line per
segment in declaration order. -/
theorem download_ts_manifest_order_witness :
    parse_m3u8_from_url tierGet (str "http://h/playlist.m3u8") = .ok tierLinks
      ∧ (download_ts tierGet [str "c"] [(str "s2.ts", str "u2"), (str "s1.ts", str "u1")]
            true 2097152 [] (str "http://h/playlist.m3u8") ⟨[str "r"], str "v.mp4"⟩).manifest
        = tierLinks.map (fun p => tsLine [str "c"] p.1)
      ∧ (download_ts tierGet [str "c"] [(str "s2.ts", str "u2"), (str "s1.ts", str "u1")]
            true 2097152 [] (str "http://h/playlist.m3u8") ⟨[str "r"], str "v.mp4"⟩).manifest
        = (download_ts tierGet [str "c"] [(str "s1.ts", str "u1"), (str "s2.ts", str "u2")]
            true 2097152 [] (str "http://h/playlist.m3u8") ⟨[str "r"], str "v.mp4"⟩).manifest :=
  ⟨rfl,
    (download_ts_manifest_order tierGet [str "c"]
        [(str "s2.ts", str "u2"), (str "s1.ts", str "u1")]
        [(str "s1.ts", str "u1"), (str "s2.ts", str "u2")] true 2097152 []
        (str "http://h/playlist.m3u8") ⟨[str "r"], str "v.mp4"⟩ tierLinks rfl).1,
    (download_ts_manifest_order tierGet [str "c"]
        [(str "s2.ts", str "u2"), (str "s1.ts", str "u1")]
        [(str "s1.ts", str "u1"), (str "s2.ts", str "u2")] true 2097152 []
        (str "http://h/playlist.m3u8") ⟨[str "r"], str "v.mp4"⟩ tierLinks rfl).2.2⟩

/-! ## Claim theorems: destination-exists handling -/

/-- Network events (the page/API POSTs and media GETs). -/
def isNetworkEv : Ev → Bool
  | .netPost _ => true
  | .netGet _ => true
  | _ => false

/-- A concrete environment whose destination file already exists and whose
remote answers are all well-formed. -/
def envC : Env where
  root := [str "r"]
  seasons := []
  cwd := [str "c"]
  page := ⟨true, some (str "tok"), some (str "A[1]")⟩
  api := ⟨some (str "//h/v.mp4"), str "e=a;p=b;HttpOnly, h=c;"⟩
  get := fun _ => ⟨404, [], 0⟩
  mp4Status := 200
  mp4ContentLength := 1
  mp4Bytes := 1
  tsOrder := []
  remuxOk := true
  remuxBytes := 0
  fs := [(⟨[str "r", str "A", str "Season 1"], str "A - 01.mp4"⟩, 999)]

/-- C2 (counterexample): with the destination already present the episode
does fail hard (`AlreadyExists`), but only *after* two network calls (the
episode-page POST and the API POST) and after the destination directory has
been created — not "before any network call with no side effects". -/
theorem episode_exists_check_after_network :
    download_episode envC (str "u")
        = ([Ev.netPost (str "u"), Ev.netPost apiUrl,
            Ev.mkdirEv [str "r", str "A", str "Season 1"],
            Ev.existsCheck ⟨[str "r", str "A", str "Season 1"], str "A - 01.mp4"⟩],
           .error .alreadyExists)
      ∧ (download_episode envC (str "u")).1.filter isNetworkEv
        = [Ev.netPost (str "u"), Ev.netPost apiUrl] :=
  ⟨rfl, rfl⟩

/-- C2 (amended): an episode whose computed destination exists fails with
`AlreadyExists` before any media transfer: the trace up to the failure is
exactly the episode-page POST, the API POST, the destination-directory
creation and the existence check — no media request, no file write, no
rename, no delete. -/
theorem episode_exists_hard_fail (env : Env) (url : Str)
    (vu t : Str) (ck : Str × Str × Str) (vp : PPath)
    (h1 : env.page.videoTag = true)
    (h2 : optTruthy env.page.dataApireq = true)
    (h3 : resolve_video_src env.api.src = .ok vu)
    (h4 : cookieTriple env.api.setCookie = some ck)
    (h5 : env.page.entryTitle = some t)
    (h6 : process_video_path env.root env.seasons (pyStrip t) = .ok vp)
    (h7 : fsExists env.fs vp = true) :
    download_episode env url
      = ([Ev.netPost url, Ev.netPost apiUrl, Ev.mkdirEv vp.dir, Ev.existsCheck vp],
         .error .alreadyExists) := by
  simp [download_episode, h1, h2, h3, h4, h5, h6, h7]

/-- Witness for `episode_exists_hard_fail`, at the concrete environment
`envC`. -/
theorem episode_exists_hard_fail_witness :
    download_episode envC (str "v")
      = ([Ev.netPost (str "v"), Ev.netPost apiUrl,
          Ev.mkdirEv [str "r", str "A", str "Season 1"],
          Ev.existsCheck ⟨[str "r", str "A", str "Season 1"], str "A - 01.mp4"⟩],
         .error .alreadyExists) :=
  episode_exists_hard_fail envC (str "v")
    (str "https:" ++ str "//h/v.mp4") (str "A[1]") (str "a", str "b", str "c")
    ⟨[str "r", str "A", str "Season 1"], str "A - 01.mp4"⟩
    rfl rfl rfl rfl rfl rfl rfl
